import Mathlib

/-!
Verification of the ts-calculator repository.

The repository has two front ends sharing one logical core:
  * `src/index.ts`   — the interactive terminal calculator (prompt loop with
    history, continuation commands, and per-operand retry loops);
  * `web/app.js`     — the browser form handler (same arithmetic engine and
    history rendering, event-driven).

JavaScript numbers are IEEE-754 doubles.  We embed them as an inductive type
`JSNum` with the special values NaN, +Infinity and -Infinity and with finite
values carried exactly as rationals (the embedding is exact arithmetic: it
keeps the control flow, special-value propagation and strict-equality guard
of the source, while idealising rounding away).
-/

namespace TSCalc

/-- A JavaScript number: NaN, +Infinity, -Infinity, or a finite value
(held exactly as a rational). -/
inductive JSNum where
  | nan : JSNum
  | posInf : JSNum
  | negInf : JSNum
  | fin : ℚ → JSNum
deriving DecidableEq, Repr

/-- JavaScript `isNaN` on an already-converted number. -/
def JSNum.isNaN : JSNum → Bool
  | .nan => true
  | _ => false

/-- JavaScript strict equality `===` on numbers: `NaN === x` is always false,
infinities compare by identity, finite values compare exactly.  (The embedding
has a single zero, so the IEEE `-0 === 0` identification is invisible here.) -/
def JSNum.strictEq : JSNum → JSNum → Bool
  | .posInf, .posInf => true
  | .negInf, .negInf => true
  | .fin a, .fin b => a = b
  | _, _ => false

/-- The JavaScript `+` operator on numbers: NaN propagates, opposite
infinities give NaN, an infinity absorbs a finite operand, finite values add
exactly. -/
def JSNum.addVal : JSNum → JSNum → JSNum
  | .nan, _ => .nan
  | _, .nan => .nan
  | .posInf, .negInf => .nan
  | .negInf, .posInf => .nan
  | .posInf, _ => .posInf
  | _, .posInf => .posInf
  | .negInf, _ => .negInf
  | _, .negInf => .negInf
  | .fin a, .fin b => .fin (a + b)

/-- The JavaScript unary minus on numbers. -/
def JSNum.negVal : JSNum → JSNum
  | .nan => .nan
  | .posInf => .negInf
  | .negInf => .posInf
  | .fin a => .fin (-a)

/-- The JavaScript `-` operator: `a - b` behaves as `a + (-b)`. -/
def JSNum.subVal (a b : JSNum) : JSNum :=
  a.addVal b.negVal

/-- The JavaScript `*` operator: NaN propagates, infinity times zero is NaN,
otherwise an infinity takes the product's sign, finite values multiply
exactly. -/
def JSNum.mulVal : JSNum → JSNum → JSNum
  | .nan, _ => .nan
  | _, .nan => .nan
  | .posInf, .posInf => .posInf
  | .posInf, .negInf => .negInf
  | .negInf, .posInf => .negInf
  | .negInf, .negInf => .posInf
  | .posInf, .fin b => if b = 0 then .nan else if 0 < b then .posInf else .negInf
  | .negInf, .fin b => if b = 0 then .nan else if 0 < b then .negInf else .posInf
  | .fin a, .posInf => if a = 0 then .nan else if 0 < a then .posInf else .negInf
  | .fin a, .negInf => if a = 0 then .nan else if 0 < a then .negInf else .posInf
  | .fin a, .fin b => .fin (a * b)

/-- The JavaScript `/` operator (the divisor `fin 0` case follows the IEEE
rule for division by the single unsigned zero of the embedding; in the source
it is unreachable behind the `b === 0` guard). -/
def JSNum.divVal : JSNum → JSNum → JSNum
  | .nan, _ => .nan
  | _, .nan => .nan
  | .posInf, .posInf => .nan
  | .posInf, .negInf => .nan
  | .negInf, .posInf => .nan
  | .negInf, .negInf => .nan
  | .posInf, .fin b => if 0 ≤ b then .posInf else .negInf
  | .negInf, .fin b => if 0 ≤ b then .negInf else .posInf
  | .fin _, .posInf => .fin 0
  | .fin _, .negInf => .fin 0
  | .fin a, .fin b =>
      if b = 0 then (if a = 0 then .nan else if 0 < a then .posInf else .negInf)
      else .fin (a / b)

/-! ### The arithmetic engine (`add`, `subtract`, `multiply`, `divide`)

Shared verbatim between `src/index.ts` lines 23-44, `src/calculator.ts`
lines 19-36 and `web/app.js` lines 7-25. -/

/-- `function add(a, b) { return a + b; }` -/
def add (a b : JSNum) : JSNum := a.addVal b

/-- `function subtract(a, b) { return a - b; }` -/
def subtract (a b : JSNum) : JSNum := a.subVal b

/-- `function multiply(a, b) { return a * b; }` -/
def multiply (a b : JSNum) : JSNum := a.mulVal b

/-- `function divide(a, b) { if (b === 0) { throw new Error('Cannot divide by zero!'); } return a / b; }`
The thrown exception is embedded as `Except.error` carrying the message. -/
def divide (a b : JSNum) : Except String JSNum :=
  if b.strictEq (.fin 0) then .error "Cannot divide by zero!"
  else .ok (a.divVal b)

/-! ### `parseFloat`

JavaScript's `parseFloat`: skip leading whitespace, read an optional sign,
then either the literal `Infinity` or a decimal mantissa with an optional
exponent; the longest valid numeric prefix is taken and trailing garbage is
ignored; if no prefix parses, the result is NaN. -/

/-- Decimal digits to a natural number (most significant first). -/
def digitsToNat (ds : List Char) : Nat :=
  ds.foldl (fun a c => 10 * a + (c.toNat - 48)) 0

/-- Parse the exponent digits after `e`/`E` (optional sign); an `e` not
followed by digits contributes exponent 0, matching the longest-valid-prefix
rule. -/
def parseExpDigits (cs : List Char) : Int :=
  match cs with
  | '-' :: r => -(digitsToNat (r.takeWhile Char.isDigit) : Int)
  | '+' :: r => (digitsToNat (r.takeWhile Char.isDigit) : Int)
  | _ => (digitsToNat (cs.takeWhile Char.isDigit) : Int)

/-- Parse an optional exponent part. -/
def parseExponent (cs : List Char) : Int :=
  match cs with
  | 'e' :: r => parseExpDigits r
  | 'E' :: r => parseExpDigits r
  | _ => 0

/-- Parse the unsigned part of a numeric literal (after sign handling). -/
def parseFloatCore (neg : Bool) (cs : List Char) : JSNum :=
  match cs with
  | 'I' :: 'n' :: 'f' :: 'i' :: 'n' :: 'i' :: 't' :: 'y' :: _ =>
      if neg then .negInf else .posInf
  | _ =>
      let intPart := cs.takeWhile Char.isDigit
      let rest1 := cs.dropWhile Char.isDigit
      let fracPart := match rest1 with
        | '.' :: r => r.takeWhile Char.isDigit
        | _ => []
      let rest2 := match rest1 with
        | '.' :: r => r.dropWhile Char.isDigit
        | _ => rest1
      if intPart.isEmpty && fracPart.isEmpty then .nan
      else
        let mant : ℚ :=
          (digitsToNat intPart : ℚ) + (digitsToNat fracPart : ℚ) / ((10 : ℚ) ^ fracPart.length)
        let v : ℚ := mant * (10 : ℚ) ^ (parseExponent rest2)
        .fin (if neg then -v else v)

/-- JavaScript `parseFloat` on a string. -/
def parseFloat (s : String) : JSNum :=
  match s.data.dropWhile Char.isWhitespace with
  | '-' :: r => parseFloatCore true r
  | '+' :: r => parseFloatCore false r
  | cs => parseFloatCore false cs

/-! ### Input validators (`src/index.ts` lines 48-56) -/

/-- `function isValidNumber(input) { const num = parseFloat(input); return !isNaN(num); }` -/
def isValidNumber (input : String) : Bool :=
  !(parseFloat input).isNaN

/-- `function isValidOperation(operation) { return operation === '+' || ... || operation === '/'; }` -/
def isValidOperation (operation : String) : Bool :=
  operation == "+" || operation == "-" || operation == "*" || operation == "/"

/-- Stringification of a number as JavaScript template interpolation renders
it: NaN and the infinities by name, integral finite values without a decimal
point.  (Non-integral rationals fall back to the rational printer; every
scenario verified below renders integral values only.) -/
def JSNum.render : JSNum → String
  | .nan => "NaN"
  | .posInf => "Infinity"
  | .negInf => "-Infinity"
  | .fin q => if q.den = 1 then toString q.num else toString q

/-- JavaScript `String.prototype.toLowerCase` (the inputs concerned are
ASCII, where it lowercases character by character). -/
def toLowerCase (s : String) : String :=
  ⟨s.data.map Char.toLower⟩

/-- JavaScript `String.prototype.trim`: strip leading and trailing
whitespace. -/
def trim (s : String) : String :=
  ⟨((s.data.dropWhile Char.isWhitespace).reverse.dropWhile Char.isWhitespace).reverse⟩

/-! ### Console events

The terminal front end talks to the user through `askQuestion` (display a
prompt, suspend for one input line) and `console.log`.  We record that
conversation as a list of events; the input lines themselves are supplied as
a list of strings, consumed left to right. -/

/-- One observable console event of the terminal front end. -/
inductive ConsoleEvent where
  | prompt : String → ConsoleEvent
  | log : String → ConsoleEvent
deriving DecidableEq, Repr

namespace Terminal

/-! Model of `src/index.ts`.  The mutable module-level `calculationHistory`
array is passed explicitly: each function takes the history before the call
and returns the history after it. -/

/-- `wantsToQuit` (`src/index.ts` lines 64-67). -/
def wantsToQuit (input : String) : Bool :=
  let lowerInput := trim (toLowerCase input)
  lowerInput == "q" || lowerInput == "quit" || lowerInput == "no"

/-- The `console.log` calls of `showHistory` (`src/index.ts` lines 71-84):
a single sentinel when the history is empty, otherwise a header, one
numbered line per record in insertion order, and a trailing blank line. -/
def showHistoryLogs (calculationHistory : List String) : List String :=
  if calculationHistory.length = 0 then
    ["\nNo calculations in history yet.\n"]
  else
    "\n=== Calculation History ===" ::
      (calculationHistory.mapIdx fun index entry => s!"{index + 1}. {entry}") ++ [""]

/-- `clearHistory` (`src/index.ts` lines 88-92) empties the array. -/
def clearHistory (_calculationHistory : List String) : List String := []

/-- The numbered record lines of `showHistory`, without header and spacing:
line `i` (0-based) renders record `i` as `"{i+1}. {record}"`. -/
def historyLines (calculationHistory : List String) : List String :=
  calculationHistory.mapIdx fun index entry => s!"{index + 1}. {entry}"

/-- Steps 1 and 2 of `performCalculation` (`src/index.ts` lines 100-123):
the retry loop that prompts with `promptText`, accepts the first input line
whose `parseFloat` is not NaN, and re-prompts with an error message
otherwise.  Returns the events together with the parsed operand and the
remaining input, or `none` if the input list is exhausted while the loop is
still waiting (the prompt of the pending `askQuestion` is still emitted). -/
def readNumberLoop (promptText : String) : List String → List ConsoleEvent × Option (JSNum × List String)
  | [] => ([.prompt promptText], none)
  | i :: rest =>
      if isValidNumber i then
        ([.prompt promptText], some (parseFloat i, rest))
      else
        let r := readNumberLoop promptText rest
        (.prompt promptText :: .log "Error: That is not a valid number. Please try again.\n" :: r.1, r.2)

/-- Step 3 of `performCalculation` (`src/index.ts` lines 128-136): the retry
loop for the operator symbol. -/
def readOperationLoop : List String → List ConsoleEvent × Option (String × List String)
  | [] => ([.prompt "Enter the operation (+, -, *, /): "], none)
  | i :: rest =>
      if isValidOperation i then
        ([.prompt "Enter the operation (+, -, *, /): "], some (i, rest))
      else
        let r := readOperationLoop rest
        (.prompt "Enter the operation (+, -, *, /): " ::
          .log "Error: Invalid operation! Valid options are: +, -, *, /\n" :: r.1, r.2)

/-- The operation dispatch of `performCalculation` step 4 (`src/index.ts`
lines 143-156): `+`, `-`, `*` branch to the total functions, everything else
falls through to `divide` (the operator was validated beforehand, so the
else branch is division). -/
def computeResult (num1 num2 : JSNum) (operation : String) : Except String JSNum :=
  if operation == "+" then .ok (add num1 num2)
  else if operation == "-" then .ok (subtract num1 num2)
  else if operation == "*" then .ok (multiply num1 num2)
  else divide num1 num2

/-- Steps 4-5 of `performCalculation` (`src/index.ts` lines 140-169): the
try/catch around the dispatch.  On success, log the result line and push the
calculation string onto the history; on a thrown error, log the error
message and leave the history untouched. -/
def performCore (num1 num2 : JSNum) (operation : String) (calculationHistory : List String) :
    List ConsoleEvent × List String :=
  match computeResult num1 num2 operation with
  | .ok result =>
      let calculationString :=
        num1.render ++ " " ++ operation ++ " " ++ num2.render ++ " = " ++ result.render
      ([.log ("\nResult: " ++ calculationString ++ "\n")],
        calculationHistory ++ [calculationString])
  | .error msg =>
      ([.log s!"\nError: {msg}\n"], calculationHistory)

/-- `performCalculation` (`src/index.ts` lines 96-170): read the two
operands, read the operator, then compute.  Returns the console events and,
when all three reads complete, the updated history and the unconsumed
input. -/
def performCalculation (inputs : List String) (calculationHistory : List String) :
    List ConsoleEvent × Option (List String × List String) :=
  let s1 := readNumberLoop "Enter the first number: " inputs
  match s1.2 with
  | none => (s1.1, none)
  | some (num1, rest1) =>
      let s2 := readNumberLoop "Enter the second number: " rest1
      match s2.2 with
      | none => (s1.1 ++ s2.1, none)
      | some (num2, rest2) =>
          let s3 := readOperationLoop rest2
          match s3.2 with
          | none => (s1.1 ++ s2.1 ++ s3.1, none)
          | some (operation, rest3) =>
              let s4 := performCore num1 num2 operation calculationHistory
              (s1.1 ++ s2.1 ++ s3.1 ++ s4.1, some (s4.2, rest3))

/-- The continuation prompt of `main` (`src/index.ts` line 191). -/
def contPrompt : String :=
  "Calculate again? (Press Enter to continue, type \"history\" to view past calculations, type \"clear\" to clear history, or type q/quit/no to exit): "

/-- The continuation dispatch of `main` (`src/index.ts` lines 195-214):
lowercase and trim the line; `"history"` prints the session, `"clear"`
empties it, a quit token ends the loop (third component `true`), and
anything else — including the empty line — just logs the spacing line and
loops.  Returns the events, the history after the step, and whether the
loop terminates. -/
def handleContinuation (continueInput : String) (calculationHistory : List String) :
    List ConsoleEvent × List String × Bool :=
  let trimmedInput := trim (toLowerCase continueInput)
  if trimmedInput == "history" then
    ((showHistoryLogs calculationHistory).map .log, calculationHistory, false)
  else if trimmedInput == "clear" then
    ([.log "\nHistory cleared!\n"], clearHistory calculationHistory, false)
  else if wantsToQuit continueInput then
    ([.log "\nGoodbye!"], calculationHistory, true)
  else
    ([.log ""], calculationHistory, false)

/-- The `while (true)` loop of `main` (`src/index.ts` lines 186-215), run on
a finite input list with `fuel` bounding the number of iterations: perform
one calculation, show the continuation prompt, dispatch on the answer, and
loop unless a quit token was entered or the input ran out. -/
def mainLoop (fuel : Nat) (inputs : List String) (calculationHistory : List String) :
    List ConsoleEvent × List String :=
  match fuel with
  | 0 => ([], calculationHistory)
  | Nat.succ f =>
      let s1 := performCalculation inputs calculationHistory
      match s1.2 with
      | none => (s1.1, calculationHistory)
      | some (h2, rest) =>
          match rest with
          | [] => (s1.1 ++ [.prompt contPrompt], h2)
          | c :: rest2 =>
              let s2 := handleContinuation c h2
              if s2.2.2 then
                (s1.1 ++ [.prompt contPrompt] ++ s2.1, s2.2.1)
              else
                let s3 := mainLoop f rest2 s2.2.1
                (s1.1 ++ [.prompt contPrompt] ++ s2.1 ++ s3.1, s3.2)

end Terminal

namespace Web

/-! Model of `web/app.js` (TypeScript original in the repository's web
source).  DOM reads and writes are replaced by explicit arguments and
results: `handleCalculate` takes the two input-field texts, the selected
operator and the history, and returns the result-region text together with
the history after the click. -/

/-- The per-record item template of `updateHistoryDisplay` (`web/app.js`
line 55): record `calc` shown with 1-based number `n`. -/
def historyItem (n : Nat) (entry : String) : String :=
  "<div class=\"history-item\">" ++ s!"{n}. {entry}" ++ "</div>"

/-- The empty-history sentinel of `updateHistoryDisplay` (`web/app.js`
line 49). -/
def emptySentinel : String :=
  "<div class=\"history-empty\">No calculations yet</div>"

/-- The sequence of history entries `updateHistoryDisplay` renders
(`web/app.js` lines 45-59): the single sentinel when the history is empty,
otherwise one item per record, numbered from 1, in insertion order.  The
page shows their concatenation. -/
def historyItems (calculationHistory : List String) : List String :=
  if calculationHistory.length = 0 then
    [emptySentinel]
  else
    calculationHistory.mapIdx fun index entry => historyItem (index + 1) entry

/-- The `innerHTML` string `updateHistoryDisplay` writes: the items joined
with no separator. -/
def updateHistoryDisplay (calculationHistory : List String) : String :=
  String.join (historyItems calculationHistory)

/-- `clearHistory` (`web/app.js` lines 39-42) empties the array. -/
def clearHistory (_calculationHistory : List String) : List String := []

/-- `performCalculation` (`web/app.js` lines 65-85): four-way switch with a
default that throws `Invalid operation`. -/
def performCalculation (num1 num2 : JSNum) (operation : String) : Except String JSNum :=
  match operation with
  | "+" => .ok (add num1 num2)
  | "-" => .ok (subtract num1 num2)
  | "*" => .ok (multiply num1 num2)
  | "/" => divide num1 num2
  | _ => .error "Invalid operation"

/-- `handleCalculate` (`web/app.js` lines 88-125): parse both field texts;
if either is NaN, show the invalid-numbers error and return with the history
untouched; otherwise compute, and on success display the calculation string
and append it to the history, on a thrown error display the error message
and leave the history untouched.  Returns the result-region text and the
history after the click. -/
def handleCalculate (num1Value num2Value operationValue : String)
    (calculationHistory : List String) : String × List String :=
  let num1 := parseFloat num1Value
  let num2 := parseFloat num2Value
  if num1.isNaN || num2.isNaN then
    ("Error: Please enter valid numbers", calculationHistory)
  else
    match performCalculation num1 num2 operationValue with
    | .ok result =>
        let calculationString :=
          num1.render ++ " " ++ operationValue ++ " " ++ num2.render ++ " = " ++ result.render
        (calculationString, calculationHistory ++ [calculationString])
    | .error msg =>
        (s!"Error: {msg}", calculationHistory)

end Web

end TSCalc

namespace TSCalc

namespace SignedZero

/-! Signed-zero refinement of the number embedding, for the negative-zero
divisor behaviour of the `divide` guard.  IEEE-754 doubles distinguish `-0`
from `+0`; `-0` is a discrete special value (no rounding involved), so it is
modelled exactly like NaN and the infinities: one more constructor beside
them.  `fin q` is the finite value `q`, with `fin 0` the positive zero.
Only `divide` is translated over this refined type — the refinement exists
to express what the `b === 0` guard does on a `-0` divisor. -/

/-- A JavaScript number with the signed zero distinguished: NaN, +Infinity,
-Infinity, -0, or a finite value (with `fin 0` the positive zero). -/
inductive JSNum where
  | nan : JSNum
  | posInf : JSNum
  | negInf : JSNum
  | negZero : JSNum
  | fin : ℚ → JSNum
deriving DecidableEq, Repr

/-- JavaScript strict equality `===` over the refined numbers: as in the
main embedding, plus the IEEE-754 rule that `-0` compares equal to `0` (and
to itself). -/
def JSNum.strictEq : JSNum → JSNum → Bool
  | .posInf, .posInf => true
  | .negInf, .negInf => true
  | .negZero, .negZero => true
  | .negZero, .fin b => b = 0
  | .fin a, .negZero => a = 0
  | .fin a, .fin b => a = b
  | _, _ => false

/-- The JavaScript `/` operator over the refined numbers, with the IEEE-754
signed-zero rules: a `-0` divisor flips the sign of an infinite or signed
quotient, `±0 / ±0` is NaN, and a zero quotient carries the sign of the
operands.  (In `divide` below every zero-divisor case sits behind the
`b === 0` guard and is unreachable.) -/
def JSNum.divVal : JSNum → JSNum → JSNum
  | .nan, _ => .nan
  | _, .nan => .nan
  | .posInf, .posInf => .nan
  | .posInf, .negInf => .nan
  | .negInf, .posInf => .nan
  | .negInf, .negInf => .nan
  | .posInf, .negZero => .negInf
  | .negInf, .negZero => .posInf
  | .posInf, .fin b => if 0 ≤ b then .posInf else .negInf
  | .negInf, .fin b => if 0 ≤ b then .negInf else .posInf
  | .negZero, .posInf => .negZero
  | .negZero, .negInf => .fin 0
  | .fin a, .posInf => if a < 0 then .negZero else .fin 0
  | .fin a, .negInf => if 0 ≤ a then .negZero else .fin 0
  | .negZero, .negZero => .nan
  | .negZero, .fin b => if b = 0 then .nan else if 0 < b then .negZero else .fin 0
  | .fin a, .negZero => if a = 0 then .nan else if 0 < a then .negInf else .posInf
  | .fin a, .fin b =>
      if b = 0 then (if a = 0 then .nan else if 0 < a then .posInf else .negInf)
      else if a = 0 ∧ b < 0 then .negZero
      else .fin (a / b)

/-- `function divide(a, b) { if (b === 0) { throw new Error('Cannot divide by zero!'); } return a / b; }`
— the same source function as `TSCalc.divide`, translated over the
signed-zero-refined numbers. -/
def divide (a b : JSNum) : Except String JSNum :=
  if b.strictEq (.fin 0) then .error "Cannot divide by zero!"
  else .ok (a.divVal b)

end SignedZero

end TSCalc
namespace TSCalc

theorem strictEq_zero_iff (b : JSNum) : b.strictEq (.fin 0) = true ↔ b = .fin 0 := by
  cases b <;> simp [JSNum.strictEq]

/-- C1: `divide a b` fails with the message `Cannot divide by zero!` exactly
when the divisor is strictly equal to zero, with no tolerance; otherwise it
returns the quotient; in particular a zero divisor fails for every dividend,
including zero. -/
theorem claim_C1_divide_guard (a b : JSNum) :
    (divide a b = .error "Cannot divide by zero!" ↔ b = .fin 0) ∧
    (b ≠ .fin 0 → divide a b = .ok (a.divVal b)) ∧
    divide a (.fin 0) = .error "Cannot divide by zero!" := by
  by_cases hb : b = .fin 0
  · subst hb
    simp [divide, JSNum.strictEq]
  · have hs : b.strictEq (.fin 0) = false := by
      rw [← Bool.not_eq_true, strictEq_zero_iff]
      exact hb
    refine ⟨?_, ?_, ?_⟩
    · simp [divide, hs, hb]
    · intro _
      simp [divide, hs]
    · simp [divide, JSNum.strictEq]

theorem claim_C1_divide_guard_witness :
    divide (.fin 1) (.fin 2) = .ok ((JSNum.fin 1).divVal (.fin 2)) :=
  (claim_C1_divide_guard (.fin 1) (.fin 2)).2.1 (by decide)

end TSCalc
namespace TSCalc

/-- C2: a failed calculation attempt never mutates the history.  In the
terminal variant an error from the dispatch leaves the history unchanged;
in the web variant a NaN operand or a thrown error leaves it unchanged;
only a successful computation appends (exactly one record). -/
theorem claim_C2_failure_preserves_history
    (num1 num2 : JSNum) (operation : String) (history : List String)
    (s1 s2 : String) :
    (∀ msg, Terminal.computeResult num1 num2 operation = .error msg →
      (Terminal.performCore num1 num2 operation history).2 = history) ∧
    (((parseFloat s1).isNaN || (parseFloat s2).isNaN) = true →
      (Web.handleCalculate s1 s2 operation history).2 = history) ∧
    (∀ msg, Web.performCalculation (parseFloat s1) (parseFloat s2) operation = .error msg →
      (Web.handleCalculate s1 s2 operation history).2 = history) ∧
    (∀ r, Terminal.computeResult num1 num2 operation = .ok r →
      (Terminal.performCore num1 num2 operation history).2 =
        history ++ [num1.render ++ " " ++ operation ++ " " ++ num2.render ++ " = " ++ r.render]) := by
  refine ⟨?_, ?_, ?_, ?_⟩
  · intro msg h
    simp [Terminal.performCore, h]
  · intro h
    simp [Web.handleCalculate, h]
  · intro msg h
    by_cases hnan : ((parseFloat s1).isNaN || (parseFloat s2).isNaN) = true
    · simp [Web.handleCalculate, hnan]
    · simp [Web.handleCalculate, hnan, h]
  · intro r h
    simp [Terminal.performCore, h]

theorem claim_C2_failure_preserves_history_witness :
    (Terminal.performCore (.fin 8) (.fin 0) "/" ["x"]).2 = ["x"] :=
  (claim_C2_failure_preserves_history (.fin 8) (.fin 0) "/" ["x"] "a" "b").1
    "Cannot divide by zero!" (by rfl)

/-- C10: the terminal operand validator accepts any string whose
leading-prefix parse is not NaN: `Infinity` and `-Infinity` pass validation
and flow on as operands; only NaN parses are refused. -/
theorem claim_C10_nonfinite_accepted (p s : String) (rest : List String) :
    isValidNumber "Infinity" = true ∧
    isValidNumber "-Infinity" = true ∧
    parseFloat "Infinity" = .posInf ∧
    parseFloat "-Infinity" = .negInf ∧
    (isValidNumber s = false ↔ (parseFloat s).isNaN = true) ∧
    (isValidNumber s = true →
      (Terminal.readNumberLoop p (s :: rest)).2 = some (parseFloat s, rest)) := by
  refine ⟨by decide, by decide, by decide, by decide, ?_, ?_⟩
  · simp [isValidNumber]
  · intro h
    simp [Terminal.readNumberLoop, h]

theorem claim_C10_nonfinite_accepted_witness :
    (Terminal.readNumberLoop "Enter the first number: " ["Infinity"]).2 =
      some (parseFloat "Infinity", []) :=
  (claim_C10_nonfinite_accepted "Enter the first number: " "Infinity" []).2.2.2.2.2
    (by decide)

/-- C8: with operator `+` and operands `10` and `5` the computation succeeds
with result 15, the logged line is `Result: 10 + 5 = 15` (padded by blank
lines), and the history, starting empty, becomes the one-record sequence
rendering as `1. 10 + 5 = 15`. -/
theorem claim_C8_ten_plus_five :
    Terminal.performCore (.fin 10) (.fin 5) "+" [] =
      ([.log "\nResult: 10 + 5 = 15\n"], ["10 + 5 = 15"]) ∧
    Terminal.historyLines ["10 + 5 = 15"] = ["1. 10 + 5 = 15"] ∧
    Web.handleCalculate "10" "5" "+" [] = ("10 + 5 = 15", ["10 + 5 = 15"]) ∧
    Web.historyItems ["10 + 5 = 15"] =
      ["<div class=\"history-item\">1. 10 + 5 = 15</div>"] := by
  refine ⟨?_, ?_, ?_, ?_⟩
  · simp [Terminal.performCore, Terminal.computeResult, add, JSNum.addVal, JSNum.render]
    norm_num
    constructor <;> rfl
  · simp [Terminal.historyLines]
    rfl
  · simp [Web.handleCalculate, Web.performCalculation, add, JSNum.addVal, JSNum.render,
      parseFloat, parseFloatCore, parseExponent, parseExpDigits, digitsToNat, JSNum.isNaN]
    norm_num
    rfl
  · simp [Web.historyItems, Web.historyItem]
    rfl

end TSCalc
namespace TSCalc

/-- C5: in the terminal operand states, an input line parsing to NaN makes
the retry loop re-prompt for the same operand with an error message and
never advance (the operand eventually produced comes from the later input);
a parseable prefix such as `10abc` yields the operand 10 and advances. -/
theorem claim_C5_operand_retry (p i : String) (rest : List String) :
    (isValidNumber i = false →
      (Terminal.readNumberLoop p (i :: rest)).2 = (Terminal.readNumberLoop p rest).2 ∧
      (Terminal.readNumberLoop p (i :: rest)).1 =
        .prompt p :: .log "Error: That is not a valid number. Please try again.\n" ::
          (Terminal.readNumberLoop p rest).1) ∧
    (isValidNumber i = true →
      Terminal.readNumberLoop p (i :: rest) = ([.prompt p], some (parseFloat i, rest))) ∧
    isValidNumber "10abc" = true ∧
    parseFloat "10abc" = .fin 10 := by
  refine ⟨?_, ?_, ?_, ?_⟩
  · intro h
    constructor <;> simp [Terminal.readNumberLoop, h]
  · intro h
    simp [Terminal.readNumberLoop, h]
  · simp [isValidNumber, parseFloat, parseFloatCore, JSNum.isNaN]
  · simp [parseFloat, parseFloatCore, parseExponent, parseExpDigits, digitsToNat]

theorem claim_C5_operand_retry_witness :
    (Terminal.readNumberLoop "Enter the first number: " ["abc", "7"]).2 =
      (Terminal.readNumberLoop "Enter the first number: " ["7"]).2 :=
  ((claim_C5_operand_retry "Enter the first number: " "abc" ["7"]).1 (by decide)).1

/-- C7: the continuation line is lowercased and trimmed; `history` renders
and prints the session and loops back, `clear` empties the session and loops
back, `q`/`quit`/`no` terminates the loop, and the empty line and every
other token loop back to a new calculation (third component `false` means
the loop continues). -/
theorem claim_C7_continuation (c : String) (history : List String) :
    (trim (toLowerCase c) = "" →
      Terminal.handleContinuation c history = ([.log ""], history, false)) ∧
    (trim (toLowerCase c) = "history" →
      Terminal.handleContinuation c history =
        ((Terminal.showHistoryLogs history).map .log, history, false)) ∧
    (trim (toLowerCase c) = "clear" →
      Terminal.handleContinuation c history = ([.log "\nHistory cleared!\n"], [], false)) ∧
    ((trim (toLowerCase c) = "q" ∨ trim (toLowerCase c) = "quit" ∨
        trim (toLowerCase c) = "no") →
      Terminal.handleContinuation c history = ([.log "\nGoodbye!"], history, true)) ∧
    (trim (toLowerCase c) ∉ (["history", "clear", "q", "quit", "no"] : List String) →
      Terminal.handleContinuation c history = Terminal.handleContinuation "" history) := by
  refine ⟨?_, ?_, ?_, ?_, ?_⟩
  · intro h
    simp [Terminal.handleContinuation, Terminal.wantsToQuit, h]
  · intro h
    simp [Terminal.handleContinuation, h]
  · intro h
    simp [Terminal.handleContinuation, Terminal.wantsToQuit, Terminal.clearHistory, h]
  · intro h
    rcases h with h | h | h <;>
      simp [Terminal.handleContinuation, Terminal.wantsToQuit, h]
  · intro h
    simp only [List.mem_cons, List.not_mem_nil, or_false, not_or] at h
    obtain ⟨h1, h2, h3, h4, h5⟩ := h
    have d1 : trim (toLowerCase "") ≠ "history" := by decide
    have d2 : trim (toLowerCase "") ≠ "clear" := by decide
    have d3 : trim (toLowerCase "") ≠ "q" := by decide
    have d4 : trim (toLowerCase "") ≠ "quit" := by decide
    have d5 : trim (toLowerCase "") ≠ "no" := by decide
    have e1 : Terminal.handleContinuation c history = ([.log ""], history, false) := by
      simp [Terminal.handleContinuation, Terminal.wantsToQuit, h1, h2, h3, h4, h5]
    have e2 : Terminal.handleContinuation "" history = ([.log ""], history, false) := by
      simp [Terminal.handleContinuation, Terminal.wantsToQuit, d1, d2, d3, d4, d5]
    rw [e1, e2]

theorem claim_C7_continuation_witness :
    Terminal.handleContinuation "HISTORY  " ["5 + 3 = 8"] =
      ((Terminal.showHistoryLogs ["5 + 3 = 8"]).map .log, ["5 + 3 = 8"], false) :=
  ((claim_C7_continuation "HISTORY  " ["5 + 3 = 8"]).2.1 (by decide))

end TSCalc
namespace TSCalc

/-- C3: rendering a history of n records yields exactly n entries, numbered
1..n in insertion order, entry i showing record i; the empty history
(initially or after clear) renders as the single no-calculations sentinel
instead of an empty sequence. -/
theorem claim_C3_history_render (history : List String) :
    Web.historyItems [] = [Web.emptySentinel] ∧
    Web.historyItems (Web.clearHistory history) = [Web.emptySentinel] ∧
    Terminal.showHistoryLogs [] = ["\nNo calculations in history yet.\n"] ∧
    (history ≠ [] →
      (Web.historyItems history).length = history.length ∧
      ∀ i e, history[i]? = some e →
        (Web.historyItems history)[i]? = some (Web.historyItem (i + 1) e)) ∧
    (Terminal.historyLines history).length = history.length ∧
    (∀ i e, history[i]? = some e →
      (Terminal.historyLines history)[i]? = some s!"{i + 1}. {e}") := by
  refine ⟨?_, ?_, ?_, ?_, ?_, ?_⟩
  · simp [Web.historyItems]
  · simp [Web.historyItems, Web.clearHistory]
  · simp [Terminal.showHistoryLogs]
  · intro hne
    constructor
    · simp [Web.historyItems, List.length_eq_zero, hne, List.length_mapIdx]
    · intro i e he
      simp [Web.historyItems, List.length_eq_zero, hne, List.getElem?_mapIdx, he]
  · simp [Terminal.historyLines, List.length_mapIdx]
  · intro i e he
    simp [Terminal.historyLines, List.getElem?_mapIdx, he]

theorem claim_C3_history_render_witness :
    (Web.historyItems ["1 + 1 = 2", "2 + 2 = 4"]).length = 2 ∧
    (Web.historyItems ["1 + 1 = 2", "2 + 2 = 4"])[1]? =
      some (Web.historyItem 2 "2 + 2 = 4") := by
  have t := (claim_C3_history_render ["1 + 1 = 2", "2 + 2 = 4"]).2.2.2.1 (by decide)
  exact ⟨t.1, t.2 1 "2 + 2 = 4" (by decide)⟩

/-- C6: the terminal loop prompts for the first operand, the second operand
and then the operator, with exactly these prompt strings, followed by the
continuation prompt after the result line. -/
theorem claim_C6_prompt_order (i1 i2 op : String) (rest : List String)
    (history : List String) (f : Nat)
    (h1 : isValidNumber i1 = true) (h2 : isValidNumber i2 = true)
    (h3 : isValidOperation op = true) :
    ∃ line tail,
      (Terminal.mainLoop (f + 1) (i1 :: i2 :: op :: rest) history).1 =
        .prompt "Enter the first number: " :: .prompt "Enter the second number: " ::
          .prompt "Enter the operation (+, -, *, /): " :: .log line ::
            .prompt Terminal.contPrompt :: tail := by
  have hp : Terminal.performCalculation (i1 :: i2 :: op :: rest) history =
      ([.prompt "Enter the first number: ", .prompt "Enter the second number: ",
        .prompt "Enter the operation (+, -, *, /): "] ++
          (Terminal.performCore (parseFloat i1) (parseFloat i2) op history).1,
        some ((Terminal.performCore (parseFloat i1) (parseFloat i2) op history).2, rest)) := by
    simp [Terminal.performCalculation, Terminal.readNumberLoop, Terminal.readOperationLoop,
      h1, h2, h3]
  obtain ⟨line, hline⟩ :
      ∃ line, (Terminal.performCore (parseFloat i1) (parseFloat i2) op history).1 =
        [.log line] := by
    unfold Terminal.performCore
    cases Terminal.computeResult (parseFloat i1) (parseFloat i2) op <;> exact ⟨_, rfl⟩
  cases rest with
  | nil =>
    refine ⟨line, [], ?_⟩
    simp [Terminal.mainLoop, hp, hline]
  | cons c rest2 =>
    by_cases hq :
      (Terminal.handleContinuation c
        (Terminal.performCore (parseFloat i1) (parseFloat i2) op history).2).2.2 = true
    · refine ⟨line,
        (Terminal.handleContinuation c
          (Terminal.performCore (parseFloat i1) (parseFloat i2) op history).2).1, ?_⟩
      simp [Terminal.mainLoop, hp, hline, hq]
    · refine ⟨line,
        (Terminal.handleContinuation c
          (Terminal.performCore (parseFloat i1) (parseFloat i2) op history).2).1 ++
          (Terminal.mainLoop f rest2
            (Terminal.handleContinuation c
              (Terminal.performCore (parseFloat i1) (parseFloat i2) op history).2).2.1).1, ?_⟩
      simp [Terminal.mainLoop, hp, hline, hq]

theorem claim_C6_prompt_order_witness :
    ∃ line tail,
      (Terminal.mainLoop 1 ["10", "5", "+"] []).1 =
        .prompt "Enter the first number: " :: .prompt "Enter the second number: " ::
          .prompt "Enter the operation (+, -, *, /): " :: .log line ::
            .prompt Terminal.contPrompt :: tail :=
  claim_C6_prompt_order "10" "5" "+" [] [] 0 (by decide) (by decide) (by decide)

end TSCalc
namespace TSCalc

/-- C9: the divide guard is strict equality `b === 0`, and negative zero
compares strictly equal to zero in IEEE-754, so `divide a (-0)` raises the
`Cannot divide by zero!` failure for every operand `a` and never returns a
value — in particular never a signed infinity. -/
theorem claim_C9_negative_zero_divisor (a : SignedZero.JSNum) :
    SignedZero.JSNum.strictEq .negZero (.fin 0) = true ∧
    SignedZero.divide a .negZero = .error "Cannot divide by zero!" ∧
    ∀ r, SignedZero.divide a .negZero ≠ .ok r := by
  have hs : SignedZero.JSNum.strictEq .negZero (.fin 0) = true := by decide
  have hd : SignedZero.divide a .negZero = .error "Cannot divide by zero!" := by
    simp [SignedZero.divide, hs]
  refine ⟨hs, hd, ?_⟩
  intro r h
  rw [hd] at h
  exact Except.noConfusion h

theorem claim_C9_negative_zero_divisor_witness :
    SignedZero.divide (.fin 8) .negZero = .error "Cannot divide by zero!" :=
  (claim_C9_negative_zero_divisor (.fin 8)).2.1

end TSCalc
